import Mathlib

/-!
Verification of the request-gateway core of `hmtpk-parser-api`
(`src/api/api.go`), as a shallow embedding.

The gateway validates query parameters, derives a 15-second timeout
context, makes exactly one upstream call through the source client
(`hmtpk.Controller`), classifies the outcome and writes one JSON
response.  Handlers are embedded as pure functions from the request's
query parameters and an upstream oracle to a `HandlerResult` recording
the responses written, the upstream calls made, the derived contexts
created and the messages logged.
-/

namespace HmtpkApi

/-- `http.StatusText` for the codes this gateway uses. -/
def statusText (code : Nat) : String :=
  if code = 200 then "OK"
  else if code = 400 then "Bad Request"
  else if code = 500 then "Internal Server Error"
  else ""

/-- `http.StatusOK`. -/
def StatusOK : Nat := 200

/-- `http.StatusBadRequest`. -/
def StatusBadRequest : Nat := 400

/-- `http.StatusInternalServerError`. -/
def StatusInternalServerError : Nat := 500

/-- One nanosecond unit: `time.Second` in nanoseconds. -/
def goSecond : Nat := 1000000000

/-- One millisecond: `time.Millisecond` in nanoseconds. -/
def goMillisecond : Nat := 1000000

/-- `timeout = time.Second * 15` (api.go line 88), in nanoseconds. -/
def timeout : Nat := goSecond * 15

/-- `requestTimeout = time.Millisecond * 200` (api.go line 89). -/
def requestTimeout : Nat := goMillisecond * 200

/-- `ErrorHmtpkNotWorking` (api.go line 91). -/
def ErrorHmtpkNotWorking : String := "Превышено время ожидания ответа от https://hmtpk.ru"

/-- `ErrorBadRequest` (api.go line 92). -/
def ErrorBadRequest : String := "Неверный запрос"

/-- `ErrorToken` (api.go line 93). -/
def ErrorToken : String := "Ошибка токена пользователя"

/-- `ErrorRequestTimeout` (api.go line 94): declared but referenced by no handler branch. -/
def ErrorRequestTimeout : String := "Превышено количество запросов к ХМТПК API в секунду"

/-- `ErrorAny` (api.go line 95). -/
def ErrorAny : String := "Произошла ошибка в ХМТПК API"

/-- The `Response` envelope (api.go lines 65-68); both fields carry
`json:",omitempty"`. The Go zero value has both fields `""`. -/
structure Response where
  Message : String := ""
  Error : String := ""
deriving DecidableEq, Repr

/-- The field list `encoding/json` emits for the envelope: with
`omitempty`, an empty string field is omitted from the serialized JSON. -/
def Response.encodedFields (resp : Response) : List (String × String) :=
  (if resp.Message = "" then [] else [("Message", resp.Message)]) ++
  (if resp.Error = "" then [] else [("Error", resp.Error)])

/-- The `data interface{}` argument of `write`: Go `nil`, an envelope, or a
payload value. A typed payload boxed into `interface{}` is never Go-`nil`,
so handlers always hit the `payload` constructor on success. -/
inductive WriteData (α : Type) where
  | goNil
  | resp (r : Response)
  | payload (p : α)
deriving DecidableEq

/-- One HTTP response as produced by `write`: `writtenHeader` is the code
passed to `w.WriteHeader`, or `none` when the status line is left at the
default 200; `body` is the JSON-encoded value. -/
structure HttpResponse (α : Type) where
  writtenHeader : Option Nat
  body : WriteData α
deriving DecidableEq

/-- The effective status of a response: an unwritten status line defaults
to 200. -/
def HttpResponse.status (r : HttpResponse α) : Nat := r.writtenHeader.getD 200

/-- `write` (api.go lines 71-85): write the status line only when it
differs from 200; substitute a status-text envelope when `data` is `nil`;
encode `data` as the body. -/
def write (statusCode : Nat) (data : WriteData α) : HttpResponse α :=
  { writtenHeader := if statusCode ≠ StatusOK then some statusCode else none
    body :=
      match data with
      | .goNil =>
        if statusCode = StatusOK then .resp { Message := statusText statusCode }
        else .resp { Error := statusText statusCode }
      | .resp r => .resp r
      | .payload p => .payload p }

/-- An upstream failure as the handlers can observe it: the results of the
`errors.Is` tests against `context.DeadlineExceeded`, `context.Canceled`,
`hmtpkErrors.ErrorBadRequest` and `hmtpkErrors.ErrorBadResponse`, and the
text of `err.Error()`. -/
structure UpstreamError where
  isDeadlineExceeded : Bool
  isCanceled : Bool
  isBadRequest : Bool
  isBadResponse : Bool
  message : String
deriving DecidableEq, Repr

/-- The five operations of the source-client interface
(`hmtpk.Controller`), with the arguments the handlers pass. -/
inductive UpstreamCall where
  | getGroupOptions
  | getTeacherOptions
  | getScheduleByGroup (group date : String)
  | getScheduleByTeacher (teacher date : String)
  | getAnnounces (page : Int)
deriving DecidableEq, Repr

/-- An upstream oracle: for each call, either a payload or a failure. -/
abbrev Upstream (α : Type) := UpstreamCall → Except UpstreamError α

/-- Everything one handler invocation does: the responses written (in
order), the upstream calls made, the timeout ceilings (ns) of the derived
contexts created, and the messages passed to `log.Error`. -/
structure HandlerResult (α : Type) where
  writes : List (HttpResponse α)
  calls : List UpstreamCall
  contexts : List Nat
  logged : List String
deriving DecidableEq

/-- `teachers` (api.go lines 98-119). -/
def teachers (up : Upstream α) : HandlerResult α :=
  match up .getTeacherOptions with
  | .error err =>
    if err.isDeadlineExceeded || err.isCanceled then
      { writes := [write StatusInternalServerError (.resp { Error := ErrorHmtpkNotWorking })]
        calls := [.getTeacherOptions], contexts := [timeout], logged := [] }
    else if err.isBadResponse then
      { writes := [write StatusInternalServerError (.resp { Error := err.message })]
        calls := [.getTeacherOptions], contexts := [timeout], logged := [] }
    else
      { writes := [write StatusInternalServerError (.resp { Error := ErrorAny })]
        calls := [.getTeacherOptions], contexts := [timeout], logged := [err.message] }
  | .ok options =>
      { writes := [write StatusOK (.payload options)]
        calls := [.getTeacherOptions], contexts := [timeout], logged := [] }

/-- `groups` (api.go lines 121-142). -/
def groups (up : Upstream α) : HandlerResult α :=
  match up .getGroupOptions with
  | .error err =>
    if err.isDeadlineExceeded || err.isCanceled then
      { writes := [write StatusInternalServerError (.resp { Error := ErrorHmtpkNotWorking })]
        calls := [.getGroupOptions], contexts := [timeout], logged := [] }
    else if err.isBadResponse then
      { writes := [write StatusInternalServerError (.resp { Error := err.message })]
        calls := [.getGroupOptions], contexts := [timeout], logged := [] }
    else
      { writes := [write StatusInternalServerError (.resp { Error := ErrorAny })]
        calls := [.getGroupOptions], contexts := [timeout], logged := [err.message] }
  | .ok options =>
      { writes := [write StatusOK (.payload options)]
        calls := [.getGroupOptions], contexts := [timeout], logged := [] }

/-- Decimal value of a digit list (most significant first). -/
def digitsToNat (s : List Char) : Nat :=
  s.foldl (fun acc c => acc * 10 + (c.toNat - 48)) 0

/-- Go leap-year rule (`time.isLeap`). -/
def isLeapYear (y : Nat) : Bool := y % 4 = 0 && (y % 100 ≠ 0 || y % 400 = 0)

/-- Go `daysIn(month, year)`: days of the month. -/
def daysIn (month year : Nat) : Nat :=
  if month = 2 then (if isLeapYear year then 29 else 28)
  else if month = 4 || month = 6 || month = 9 || month = 11 then 30
  else 31

/-- `time.Parse("02.01.2006", s)` succeeds: the layout demands exactly two
day digits, a dot, exactly two month digits, a dot, exactly four year
digits, nothing after; then `Parse` checks month in 1..12 and day in
1..daysIn(month, year). Returns `true` when the parse succeeds. -/
def parseGoDate (s : String) : Bool :=
  match s.toList with
  | [d1, d2, p1, m1, m2, p2, y1, y2, y3, y4] =>
    p1 = '.' && p2 = '.' &&
    d1.isDigit && d2.isDigit && m1.isDigit && m2.isDigit &&
    y1.isDigit && y2.isDigit && y3.isDigit && y4.isDigit &&
    (let day := digitsToNat [d1, d2]
     let month := digitsToNat [m1, m2]
     let year := digitsToNat [y1, y2, y3, y4]
     1 ≤ month && month ≤ 12 && 1 ≤ day && day ≤ daysIn month year)
  | _ => false

/-- `strconv.Atoi(s)`: optional sign, one or more decimal digits, value
within the 64-bit int range; `none` models a non-nil error. -/
def goAtoi (s : String) : Option Int :=
  match s.toList with
  | [] => none
  | c :: rest =>
    let neg : Bool := c = '-'
    let ds : List Char := if c = '-' || c = '+' then rest else c :: rest
    if ds = [] || !ds.all Char.isDigit then none
    else
      let v : Int := if neg then -(digitsToNat ds : Int) else (digitsToNat ds : Int)
      if v < -(2 ^ 63) || (2 ^ 63 - 1 : Int) < v then none else some v

/-- The query parameters the `schedule` handler reads; `r.URL.Query().Get`
returns `""` for an absent parameter. -/
structure ScheduleQuery where
  key : String
  date : String
  group : String
  teacher : String
deriving DecidableEq, Repr

/-- A 400 rejection written before any upstream activity. -/
def clientReject (α : Type) : HandlerResult α :=
  { writes := [write StatusBadRequest (.resp { Error := ErrorBadRequest })]
    calls := [], contexts := [], logged := [] }

/-- The date the `schedule` handler passes upstream: the `date` parameter
when non-empty, otherwise the formatted current date (api.go lines 151-159). -/
def resolvedDate (q : ScheduleQuery) (nowDate : String) : String :=
  if q.date ≠ "" then q.date else nowDate

/-- `schedule` (api.go lines 144-218). `nowDate` is the value of
`time.Now().Format("02.01.2006")`, supplied by the environment. -/
def schedule (up : Upstream α) (nowDate : String) (q : ScheduleQuery) : HandlerResult α :=
  if q.key = "" then clientReject α
  else if q.date ≠ "" ∧ parseGoDate q.date = false then clientReject α
  else
    let date := resolvedDate q nowDate
    if q.group ≠ "" then
      match up (.getScheduleByGroup q.group date) with
      | .error err =>
        if err.isDeadlineExceeded || err.isCanceled then
          { writes := [write StatusInternalServerError (.resp { Error := ErrorHmtpkNotWorking })]
            calls := [.getScheduleByGroup q.group date], contexts := [timeout], logged := [] }
        else if err.isBadRequest then
          { writes := [write StatusBadRequest (.resp { Error := err.message })]
            calls := [.getScheduleByGroup q.group date], contexts := [timeout], logged := [] }
        else if err.isBadResponse then
          { writes := [write StatusInternalServerError (.resp { Error := err.message })]
            calls := [.getScheduleByGroup q.group date], contexts := [timeout], logged := [] }
        else
          { writes := [write StatusInternalServerError (.resp { Error := ErrorAny })]
            calls := [.getScheduleByGroup q.group date], contexts := [timeout], logged := [err.message] }
      | .ok scheduleByGroup =>
          { writes := [write StatusOK (.payload scheduleByGroup)]
            calls := [.getScheduleByGroup q.group date], contexts := [timeout], logged := [] }
    else if q.teacher ≠ "" then
      match up (.getScheduleByTeacher q.teacher date) with
      | .error err =>
        if err.isDeadlineExceeded || err.isCanceled then
          { writes := [write StatusInternalServerError (.resp { Error := ErrorHmtpkNotWorking })]
            calls := [.getScheduleByTeacher q.teacher date], contexts := [timeout], logged := [] }
        else if err.isBadRequest then
          { writes := [write StatusBadRequest (.resp { Error := err.message })]
            calls := [.getScheduleByTeacher q.teacher date], contexts := [timeout], logged := [] }
        else if err.isBadResponse then
          { writes := [write StatusInternalServerError (.resp { Error := err.message })]
            calls := [.getScheduleByTeacher q.teacher date], contexts := [timeout], logged := [] }
        else
          { writes := [write StatusInternalServerError (.resp { Error := ErrorAny })]
            calls := [.getScheduleByTeacher q.teacher date], contexts := [timeout], logged := [err.message] }
      | .ok scheduleByTeacher =>
          { writes := [write StatusOK (.payload scheduleByTeacher)]
            calls := [.getScheduleByTeacher q.teacher date], contexts := [timeout], logged := [] }
    else clientReject α

/-- `announces` (api.go lines 220-247). `pageStr` is the raw `page`
query parameter. -/
def announces (up : Upstream α) (pageStr : String) : HandlerResult α :=
  match goAtoi pageStr with
  | none => clientReject α
  | some page =>
    match up (.getAnnounces page) with
    | .error err =>
      if err.isDeadlineExceeded || err.isCanceled then
        { writes := [write StatusInternalServerError (.resp { Error := ErrorHmtpkNotWorking })]
          calls := [.getAnnounces page], contexts := [timeout], logged := [] }
      else if err.isBadResponse then
        { writes := [write StatusInternalServerError (.resp { Error := err.message })]
          calls := [.getAnnounces page], contexts := [timeout], logged := [] }
      else
        { writes := [write StatusInternalServerError (.resp { Error := ErrorAny })]
          calls := [.getAnnounces page], contexts := [timeout], logged := [err.message] }
    | .ok announceList =>
        { writes := [write StatusOK (.payload announceList)]
          calls := [.getAnnounces page], contexts := [timeout], logged := [] }

/-- Holds of an envelope when exactly one of its two fields is non-empty
and the serialized JSON contains exactly that field. -/
def envelopeOneField (e : Response) : Prop :=
  (e.Message ≠ "" ∧ e.Error = "" ∧ e.encodedFields = [("Message", e.Message)])
  ∨ (e.Error ≠ "" ∧ e.Message = "" ∧ e.encodedFields = [("Error", e.Error)])

/-!  Helper lemmas. -/

lemma write_resp_body {α : Type} (sc : Nat) (x : Response) :
    (write sc (.resp x) : HttpResponse α).body = .resp x := rfl

lemma write_payload_body {α : Type} (sc : Nat) (p : α) :
    (write sc (.payload p)).body = .payload p := rfl

lemma envelopeOneField_error {s : String} (hs : s ≠ "") :
    envelopeOneField { Error := s } := by
  right
  exact ⟨hs, rfl, by simp [Response.encodedFields, hs]⟩

/-- Every envelope the `teachers` handler can write. -/
lemma teachers_envelopes {α : Type} (up : Upstream α) (P : Response → Prop)
    (hTimeoutMsg : P { Error := ErrorHmtpkNotWorking })
    (hAny : P { Error := ErrorAny })
    (hMsg : ∀ e, up .getTeacherOptions = .error e → P { Error := e.message }) :
    ∀ r ∈ (teachers up).writes, ∀ env, r.body = .resp env → P env := by
  rcases hup : up .getTeacherOptions with e | p
  · simp only [teachers, hup]
    split_ifs with h1 h2 <;>
      (intro r hr env he;
       simp only [List.mem_singleton] at hr;
       subst hr;
       rw [write_resp_body] at he;
       injection he with he;
       subst he)
    · exact hTimeoutMsg
    · exact hMsg e hup
    · exact hAny
  · simp only [teachers, hup]
    intro r hr env he
    simp only [List.mem_singleton] at hr
    subst hr
    rw [write_payload_body] at he
    exact WriteData.noConfusion he

/-- Every envelope the `groups` handler can write. -/
lemma groups_envelopes {α : Type} (up : Upstream α) (P : Response → Prop)
    (hTimeoutMsg : P { Error := ErrorHmtpkNotWorking })
    (hAny : P { Error := ErrorAny })
    (hMsg : ∀ e, up .getGroupOptions = .error e → P { Error := e.message }) :
    ∀ r ∈ (groups up).writes, ∀ env, r.body = .resp env → P env := by
  rcases hup : up .getGroupOptions with e | p
  · simp only [groups, hup]
    split_ifs with h1 h2 <;>
      (intro r hr env he;
       simp only [List.mem_singleton] at hr;
       subst hr;
       rw [write_resp_body] at he;
       injection he with he;
       subst he)
    · exact hTimeoutMsg
    · exact hMsg e hup
    · exact hAny
  · simp only [groups, hup]
    intro r hr env he
    simp only [List.mem_singleton] at hr
    subst hr
    rw [write_payload_body] at he
    exact WriteData.noConfusion he

/-- Every envelope the `announces` handler can write. -/
lemma announces_envelopes {α : Type} (up : Upstream α) (pageStr : String) (P : Response → Prop)
    (hBad : P { Error := ErrorBadRequest })
    (hTimeoutMsg : P { Error := ErrorHmtpkNotWorking })
    (hAny : P { Error := ErrorAny })
    (hMsg : ∀ c e, up c = .error e → P { Error := e.message }) :
    ∀ r ∈ (announces up pageStr).writes, ∀ env, r.body = .resp env → P env := by
  rcases hpage : goAtoi pageStr with _ | page
  · simp only [announces, hpage]
    intro r hr env he
    simp only [clientReject, List.mem_singleton] at hr
    subst hr
    rw [write_resp_body] at he
    injection he with he
    subst he
    exact hBad
  · rcases hup : up (.getAnnounces page) with e | p
    · simp only [announces, hpage, hup]
      split_ifs with h1 h2 <;>
        (intro r hr env he;
         simp only [List.mem_singleton] at hr;
         subst hr;
         rw [write_resp_body] at he;
         injection he with he;
         subst he)
      · exact hTimeoutMsg
      · exact hMsg _ e hup
      · exact hAny
    · simp only [announces, hpage, hup]
      intro r hr env he
      simp only [List.mem_singleton] at hr
      subst hr
      rw [write_payload_body] at he
      exact WriteData.noConfusion he

/-- Every envelope the `schedule` handler can write. -/
lemma schedule_envelopes {α : Type} (up : Upstream α) (nowDate : String) (q : ScheduleQuery)
    (P : Response → Prop)
    (hBad : P { Error := ErrorBadRequest })
    (hTimeoutMsg : P { Error := ErrorHmtpkNotWorking })
    (hAny : P { Error := ErrorAny })
    (hMsg : ∀ c e, up c = .error e → P { Error := e.message }) :
    ∀ r ∈ (schedule up nowDate q).writes, ∀ env, r.body = .resp env → P env := by
  unfold schedule
  split_ifs with h1 h2 h3 h4
  · intro r hr env he
    simp only [clientReject, List.mem_singleton] at hr
    subst hr
    rw [write_resp_body] at he
    injection he with he
    subst he
    exact hBad
  · intro r hr env he
    simp only [clientReject, List.mem_singleton] at hr
    subst hr
    rw [write_resp_body] at he
    injection he with he
    subst he
    exact hBad
  · rcases hup : up (.getScheduleByGroup q.group (resolvedDate q nowDate)) with e | p
    · simp only [hup]
      split_ifs with g1 g2 g3 <;>
        (intro r hr env he;
         simp only [List.mem_singleton] at hr;
         subst hr;
         rw [write_resp_body] at he;
         injection he with he;
         subst he)
      · exact hTimeoutMsg
      · exact hMsg _ e hup
      · exact hMsg _ e hup
      · exact hAny
    · simp only [hup]
      intro r hr env he
      simp only [List.mem_singleton] at hr
      subst hr
      rw [write_payload_body] at he
      exact WriteData.noConfusion he
  · rcases hup : up (.getScheduleByTeacher q.teacher (resolvedDate q nowDate)) with e | p
    · simp only [hup]
      split_ifs with g1 g2 g3 <;>
        (intro r hr env he;
         simp only [List.mem_singleton] at hr;
         subst hr;
         rw [write_resp_body] at he;
         injection he with he;
         subst he)
      · exact hTimeoutMsg
      · exact hMsg _ e hup
      · exact hMsg _ e hup
      · exact hAny
    · simp only [hup]
      intro r hr env he
      simp only [List.mem_singleton] at hr
      subst hr
      rw [write_payload_body] at he
      exact WriteData.noConfusion he
  · intro r hr env he
    simp only [clientReject, List.mem_singleton] at hr
    subst hr
    rw [write_resp_body] at he
    injection he with he
    subst he
    exact hBad

/-- Unclassified-failure handling of `teachers`. -/
lemma teachers_unclassified {α : Type} (up : Upstream α) (e : UpstreamError)
    (h : up .getTeacherOptions = .error e)
    (hsig : (e.isDeadlineExceeded || e.isCanceled) = false)
    (hre : e.isBadResponse = false) :
    teachers up =
      { writes := [write StatusInternalServerError (.resp { Error := ErrorAny })]
        calls := [.getTeacherOptions], contexts := [timeout], logged := [e.message] } := by
  simp only [teachers, h]
  rw [if_neg (by simp [hsig]), if_neg (by simp [hre])]

/-- Unclassified-failure handling of `groups`. -/
lemma groups_unclassified {α : Type} (up : Upstream α) (e : UpstreamError)
    (h : up .getGroupOptions = .error e)
    (hsig : (e.isDeadlineExceeded || e.isCanceled) = false)
    (hre : e.isBadResponse = false) :
    groups up =
      { writes := [write StatusInternalServerError (.resp { Error := ErrorAny })]
        calls := [.getGroupOptions], contexts := [timeout], logged := [e.message] } := by
  simp only [groups, h]
  rw [if_neg (by simp [hsig]), if_neg (by simp [hre])]

/-- Unclassified-failure handling of `announces`. -/
lemma announces_unclassified {α : Type} (up : Upstream α) (pageStr : String) (page : Int)
    (e : UpstreamError) (hp : goAtoi pageStr = some page)
    (h : up (.getAnnounces page) = .error e)
    (hsig : (e.isDeadlineExceeded || e.isCanceled) = false)
    (hre : e.isBadResponse = false) :
    announces up pageStr =
      { writes := [write StatusInternalServerError (.resp { Error := ErrorAny })]
        calls := [.getAnnounces page], contexts := [timeout], logged := [e.message] } := by
  simp only [announces, hp, h]
  rw [if_neg (by simp [hsig]), if_neg (by simp [hre])]

/-- Unclassified-failure handling of the `schedule` group branch. -/
lemma schedule_group_unclassified {α : Type} (up : Upstream α) (nowDate : String)
    (q : ScheduleQuery) (e : UpstreamError)
    (hk : q.key ≠ "") (hd : ¬(q.date ≠ "" ∧ parseGoDate q.date = false)) (hg : q.group ≠ "")
    (h : up (.getScheduleByGroup q.group (resolvedDate q nowDate)) = .error e)
    (hsig : (e.isDeadlineExceeded || e.isCanceled) = false)
    (hbr : e.isBadRequest = false) (hre : e.isBadResponse = false) :
    schedule up nowDate q =
      { writes := [write StatusInternalServerError (.resp { Error := ErrorAny })]
        calls := [.getScheduleByGroup q.group (resolvedDate q nowDate)]
        contexts := [timeout], logged := [e.message] } := by
  unfold schedule
  rw [if_neg hk, if_neg hd, if_pos hg]
  simp only [h]
  rw [if_neg (by simp [hsig]), if_neg (by simp [hbr]), if_neg (by simp [hre])]

/-- Unclassified-failure handling of the `schedule` teacher branch. -/
lemma schedule_teacher_unclassified {α : Type} (up : Upstream α) (nowDate : String)
    (q : ScheduleQuery) (e : UpstreamError)
    (hk : q.key ≠ "") (hd : ¬(q.date ≠ "" ∧ parseGoDate q.date = false))
    (hg : q.group = "") (ht : q.teacher ≠ "")
    (h : up (.getScheduleByTeacher q.teacher (resolvedDate q nowDate)) = .error e)
    (hsig : (e.isDeadlineExceeded || e.isCanceled) = false)
    (hbr : e.isBadRequest = false) (hre : e.isBadResponse = false) :
    schedule up nowDate q =
      { writes := [write StatusInternalServerError (.resp { Error := ErrorAny })]
        calls := [.getScheduleByTeacher q.teacher (resolvedDate q nowDate)]
        contexts := [timeout], logged := [e.message] } := by
  unfold schedule
  rw [if_neg hk, if_neg hd, if_neg (by simpa using hg), if_pos ht]
  simp only [h]
  rw [if_neg (by simp [hsig]), if_neg (by simp [hbr]), if_neg (by simp [hre])]

/-!  Theorems for the spec claims. -/

/-- C3: on every endpoint the single upstream call runs under a derived
context with a 15-second ceiling, and a failure carrying the context's own
cancellation/deadline signal is classified before any other rule — the
other error tags of `err` are unconstrained here — producing status 500
with the fixed `ErrorHmtpkNotWorking` message. -/
theorem C3_timeout_priority {α : Type} (up : Upstream α) (err : UpstreamError)
    (hsig : (err.isDeadlineExceeded || err.isCanceled) = true)
    (nowDate : String) (q : ScheduleQuery) (pageStr : String) (page : Int) :
    timeout = 15 * goSecond
    ∧ (up .getTeacherOptions = .error err →
        (teachers up).writes = [write StatusInternalServerError (.resp { Error := ErrorHmtpkNotWorking })]
        ∧ (teachers up).contexts = [timeout] ∧ (teachers up).calls.length = 1)
    ∧ (up .getGroupOptions = .error err →
        (groups up).writes = [write StatusInternalServerError (.resp { Error := ErrorHmtpkNotWorking })]
        ∧ (groups up).contexts = [timeout] ∧ (groups up).calls.length = 1)
    ∧ (q.key ≠ "" → ¬(q.date ≠ "" ∧ parseGoDate q.date = false) → q.group ≠ "" →
        up (.getScheduleByGroup q.group (resolvedDate q nowDate)) = .error err →
        (schedule up nowDate q).writes = [write StatusInternalServerError (.resp { Error := ErrorHmtpkNotWorking })]
        ∧ (schedule up nowDate q).contexts = [timeout] ∧ (schedule up nowDate q).calls.length = 1)
    ∧ (q.key ≠ "" → ¬(q.date ≠ "" ∧ parseGoDate q.date = false) → q.group = "" → q.teacher ≠ "" →
        up (.getScheduleByTeacher q.teacher (resolvedDate q nowDate)) = .error err →
        (schedule up nowDate q).writes = [write StatusInternalServerError (.resp { Error := ErrorHmtpkNotWorking })]
        ∧ (schedule up nowDate q).contexts = [timeout] ∧ (schedule up nowDate q).calls.length = 1)
    ∧ (goAtoi pageStr = some page → up (.getAnnounces page) = .error err →
        (announces up pageStr).writes = [write StatusInternalServerError (.resp { Error := ErrorHmtpkNotWorking })]
        ∧ (announces up pageStr).contexts = [timeout] ∧ (announces up pageStr).calls.length = 1) := by
  refine ⟨by decide, ?_, ?_, ?_, ?_, ?_⟩
  · intro h
    simp only [teachers, h]
    rw [if_pos hsig]
    exact ⟨rfl, rfl, rfl⟩
  · intro h
    simp only [groups, h]
    rw [if_pos hsig]
    exact ⟨rfl, rfl, rfl⟩
  · intro hk hd hg h
    unfold schedule
    rw [if_neg hk, if_neg hd, if_pos hg]
    simp only [h]
    rw [if_pos hsig]
    exact ⟨rfl, rfl, rfl⟩
  · intro hk hd hg ht h
    unfold schedule
    rw [if_neg hk, if_neg hd, if_neg (by simpa using hg), if_pos ht]
    simp only [h]
    rw [if_pos hsig]
    exact ⟨rfl, rfl, rfl⟩
  · intro hp h
    simp only [announces, hp]
    simp only [h]
    rw [if_pos hsig]
    exact ⟨rfl, rfl, rfl⟩

/-- C3 witness: a concrete error that carries the deadline signal and is
simultaneously tagged `BadRequest` and `BadResponse` is still classified
as a timeout on the `teachers` endpoint and on the `schedule` group
branch, and the ceiling is 15 seconds. -/
theorem C3_witness :
    timeout = 15 * goSecond
    ∧ (teachers (fun _ => Except.error ⟨true, false, true, true, "boom"⟩) : HandlerResult String).writes
        = [write StatusInternalServerError (.resp { Error := ErrorHmtpkNotWorking })]
    ∧ (schedule (fun _ => Except.error ⟨true, false, true, true, "boom"⟩) "05.10.2026"
        ⟨"k", "", "G1", ""⟩ : HandlerResult String).writes
        = [write StatusInternalServerError (.resp { Error := ErrorHmtpkNotWorking })] := by
  have h := C3_timeout_priority (α := String)
    (fun _ => Except.error ⟨true, false, true, true, "boom"⟩)
    ⟨true, false, true, true, "boom"⟩ rfl "05.10.2026" ⟨"k", "", "G1", ""⟩ "1" 1
  exact ⟨h.1, (h.2.1 rfl).1, (h.2.2.2.1 (by decide) (by decide) (by decide) rfl).1⟩

/-- C1 counterexample: on the `teachers` endpoint an upstream error tagged
`BadRequest` (message `boom`) is answered with status 500 and the fixed
generic message — not with status 400 and the message verbatim as the
claim states — because only the `schedule` handler has a `BadRequest`
branch. -/
theorem C1_counterexample :
    (teachers (fun _ => Except.error ⟨false, false, true, false, "boom"⟩) : HandlerResult String).writes
      = [write StatusInternalServerError (.resp { Error := ErrorAny })]
    ∧ (write StatusInternalServerError (.resp { Error := ErrorAny }) : HttpResponse String).status = 500
    ∧ ErrorAny ≠ "boom" ∧ StatusInternalServerError ≠ StatusBadRequest :=
  ⟨rfl, rfl, by decide, by decide⟩

/-- C1 amended: only the `/schedule` handler classifies `BadRequest`:
there, an upstream error tagged `BadRequest` that does not carry the
context's cancellation/deadline signal yields status 400 with the
upstream message verbatim (both branches); on `/teachers`, `/groups` and
`/announces` the same error (when also not tagged `BadResponse`) falls
through to the unclassified rule: status 500 with the fixed generic
message. -/
theorem C1_badRequest_schedule_only {α : Type} (up : Upstream α) (err : UpstreamError)
    (nowDate : String) (q : ScheduleQuery) (pageStr : String) (page : Int)
    (hsig : (err.isDeadlineExceeded || err.isCanceled) = false)
    (hbr : err.isBadRequest = true) :
    (q.key ≠ "" → ¬(q.date ≠ "" ∧ parseGoDate q.date = false) → q.group ≠ "" →
      up (.getScheduleByGroup q.group (resolvedDate q nowDate)) = .error err →
      (schedule up nowDate q).writes = [write StatusBadRequest (.resp { Error := err.message })]
      ∧ ∀ r ∈ (schedule up nowDate q).writes, r.status = StatusBadRequest)
    ∧ (q.key ≠ "" → ¬(q.date ≠ "" ∧ parseGoDate q.date = false) → q.group = "" → q.teacher ≠ "" →
      up (.getScheduleByTeacher q.teacher (resolvedDate q nowDate)) = .error err →
      (schedule up nowDate q).writes = [write StatusBadRequest (.resp { Error := err.message })])
    ∧ (err.isBadResponse = false →
        (up .getTeacherOptions = .error err →
          (teachers up).writes = [write StatusInternalServerError (.resp { Error := ErrorAny })])
        ∧ (up .getGroupOptions = .error err →
          (groups up).writes = [write StatusInternalServerError (.resp { Error := ErrorAny })])
        ∧ (goAtoi pageStr = some page → up (.getAnnounces page) = .error err →
          (announces up pageStr).writes = [write StatusInternalServerError (.resp { Error := ErrorAny })])) := by
  refine ⟨?_, ?_, ?_⟩
  · intro hk hd hg h
    have hw : (schedule up nowDate q).writes
        = [write StatusBadRequest (.resp { Error := err.message })] := by
      unfold schedule
      rw [if_neg hk, if_neg hd, if_pos hg]
      simp only [h]
      rw [if_neg (by simp [hsig]), if_pos hbr]
    refine ⟨hw, ?_⟩
    intro r hr
    rw [hw] at hr
    simp at hr
    subst hr
    rfl
  · intro hk hd hg ht h
    unfold schedule
    rw [if_neg hk, if_neg hd, if_neg (by simpa using hg), if_pos ht]
    simp only [h]
    rw [if_neg (by simp [hsig]), if_pos hbr]
  · intro hre
    refine ⟨?_, ?_, ?_⟩
    · intro h
      simp only [teachers, h]
      rw [if_neg (by simp [hsig]), if_neg (by simp [hre])]
    · intro h
      simp only [groups, h]
      rw [if_neg (by simp [hsig]), if_neg (by simp [hre])]
    · intro hp h
      simp only [announces, hp, h]
      rw [if_neg (by simp [hsig]), if_neg (by simp [hre])]

/-- C1 witness: a `BadRequest`-tagged upstream error with message `msg`
yields 400 with `msg` verbatim on the `schedule` group branch, and 500
with the generic message on `teachers`. -/
theorem C1_witness :
    (schedule (fun _ => Except.error ⟨false, false, true, false, "msg"⟩) "05.10.2026"
        ⟨"k", "", "G1", ""⟩ : HandlerResult String).writes
      = [write StatusBadRequest (.resp { Error := "msg" })]
    ∧ (teachers (fun _ => Except.error ⟨false, false, true, false, "msg"⟩) : HandlerResult String).writes
      = [write StatusInternalServerError (.resp { Error := ErrorAny })] := by
  have h := C1_badRequest_schedule_only (α := String)
    (fun _ => Except.error ⟨false, false, true, false, "msg"⟩)
    ⟨false, false, true, false, "msg"⟩ "05.10.2026" ⟨"k", "", "G1", ""⟩ "1" 1 rfl rfl
  exact ⟨(h.1 (by decide) (by decide) (by decide) rfl).1, (h.2.2 rfl).1 rfl⟩

/-- C2 counterexample: two `/schedule` requests that differ only in their
non-empty `key` values produce identical handler results, and the single
upstream call `GetScheduleByGroup "G1" date` carries no key at all — the
key is not passed through to the upstream call, contrary to the claim. -/
theorem C2_counterexample :
    (schedule (fun _ => Except.ok "P") "05.10.2026" ⟨"k1", "", "G1", ""⟩ : HandlerResult String)
      = schedule (fun _ => Except.ok "P") "05.10.2026" ⟨"k2", "", "G1", ""⟩
    ∧ (schedule (fun _ => Except.ok "P") "05.10.2026" ⟨"k1", "", "G1", ""⟩ : HandlerResult String).calls
      = [.getScheduleByGroup "G1" "05.10.2026"] :=
  ⟨rfl, rfl⟩

/-- C2 amended: the `/schedule` handler requires `key` to be non-empty
but then discards it: the handler result is independent of which
non-empty key was supplied, and the upstream calls carry only group (or
teacher) and date, so no authentication happens beyond the non-emptiness
check. -/
theorem C2_key_not_forwarded {α : Type} (up : Upstream α) (nowDate : String) (q : ScheduleQuery)
    (k1 k2 : String) (h1 : k1 ≠ "") (h2 : k2 ≠ "") :
    schedule up nowDate { q with key := k1 } = schedule up nowDate { q with key := k2 }
    ∧ (q.key = "" → schedule up nowDate q = clientReject α) := by
  constructor
  · unfold schedule
    rw [if_neg (show ¬({ q with key := k1 } : ScheduleQuery).key = "" from h1),
        if_neg (show ¬({ q with key := k2 } : ScheduleQuery).key = "" from h2)]
    rfl
  · intro hk; simp [schedule, hk]

/-- C2 witness: keys `a` and `b` give the same `/schedule` result on a
concrete request. -/
theorem C2_witness :
    schedule (fun _ => Except.ok "P") "05.10.2026" ⟨"a", "", "G1", ""⟩
      = (schedule (fun _ => Except.ok "P") "05.10.2026" ⟨"b", "", "G1", ""⟩ : HandlerResult String) :=
  (C2_key_not_forwarded (fun _ => Except.ok "P") "05.10.2026" ⟨"x", "", "G1", ""⟩
    "a" "b" (by decide) (by decide)).1

/-- C4: a request that fails validation — `/schedule` with empty `key`,
or a non-empty `date` that does not parse under `DD.MM.YYYY`, or neither
`group` nor `teacher` non-empty; `/announces` with a `page` that does not
parse as a base-10 integer — is answered with status 400 and the fixed
client-error message, with no upstream call and no derived context. -/
theorem C4_validation_short_circuit {α : Type} (up : Upstream α) (nowDate : String)
    (q : ScheduleQuery) (pageStr : String) :
    (q.key = "" → schedule up nowDate q = clientReject α)
    ∧ (q.date ≠ "" → parseGoDate q.date = false → schedule up nowDate q = clientReject α)
    ∧ (q.group = "" → q.teacher = "" → schedule up nowDate q = clientReject α)
    ∧ (goAtoi pageStr = none → announces up pageStr = clientReject α)
    ∧ (clientReject α).writes = [write StatusBadRequest (.resp { Error := ErrorBadRequest })]
    ∧ (clientReject α).calls = [] ∧ (clientReject α).contexts = [] := by
  refine ⟨?_, ?_, ?_, ?_, rfl, rfl, rfl⟩
  · intro hk; simp [schedule, hk]
  · intro hd hp
    by_cases hk : q.key = "" <;> simp [schedule, hk, hd, hp]
  · intro hg ht
    by_cases hk : q.key = "" <;> simp [schedule, hk, hg, ht]
  · intro hpage; simp [announces, hpage]

/-- C4 witness: an empty key, the unparsable date `31.02.2026`, a request
with neither `group` nor `teacher`, and the page string `abc` are all
rejected with the fixed 400 response and no upstream activity. -/
theorem C4_witness :
    (schedule (fun _ => Except.ok "P") "05.10.2026" ⟨"", "", "G1", ""⟩ = clientReject String)
    ∧ (schedule (fun _ => Except.ok "P") "05.10.2026" ⟨"k", "31.02.2026", "G1", ""⟩ = clientReject String)
    ∧ (schedule (fun _ => Except.ok "P") "05.10.2026" ⟨"k", "", "", ""⟩ = clientReject String)
    ∧ (announces (fun _ => Except.ok "P") "abc" = clientReject String) := by
  refine ⟨?_, ?_, ?_, ?_⟩
  · exact (C4_validation_short_circuit (fun _ => Except.ok "P") "05.10.2026"
      ⟨"", "", "G1", ""⟩ "abc").1 rfl
  · exact (C4_validation_short_circuit (fun _ => Except.ok "P") "05.10.2026"
      ⟨"k", "31.02.2026", "G1", ""⟩ "abc").2.1 (by decide) (by decide)
  · exact (C4_validation_short_circuit (fun _ => Except.ok "P") "05.10.2026"
      ⟨"k", "", "", ""⟩ "abc").2.2.1 rfl rfl
  · exact (C4_validation_short_circuit (fun _ => Except.ok "P") "05.10.2026"
      ⟨"k", "", "", ""⟩ "abc").2.2.2.1 (by decide)

/-- C5: when both `group` and `teacher` are supplied non-empty on a
`/schedule` request that passes validation, only the group branch runs:
the one upstream call is `GetScheduleByGroup` and `GetScheduleByTeacher`
is never invoked. -/
theorem C5_group_precedence {α : Type} (up : Upstream α) (nowDate : String) (q : ScheduleQuery)
    (hk : q.key ≠ "") (hd : q.date = "" ∨ parseGoDate q.date = true)
    (hg : q.group ≠ "") (ht : q.teacher ≠ "") :
    (schedule up nowDate q).calls = [.getScheduleByGroup q.group (resolvedDate q nowDate)]
    ∧ ∀ t d, UpstreamCall.getScheduleByTeacher t d ∉ (schedule up nowDate q).calls := by
  have h2 : ¬(q.date ≠ "" ∧ parseGoDate q.date = false) := by
    rcases hd with h | h <;> simp [h]
  have hcalls : (schedule up nowDate q).calls =
      [.getScheduleByGroup q.group (resolvedDate q nowDate)] := by
    unfold schedule
    rw [if_neg hk, if_neg h2, if_pos hg]
    rcases hup : up (.getScheduleByGroup q.group (resolvedDate q nowDate)) with e | p
    · simp only [hup]; split_ifs <;> rfl
    · simp [hup]
  exact ⟨hcalls, by simp [hcalls]⟩

/-- C5 witness: with both `group=G1` and `teacher=T1` supplied, the only
upstream call is `GetScheduleByGroup "G1"` for the given date. -/
theorem C5_witness :
    (schedule (fun _ => Except.ok "P") "05.10.2026"
      ⟨"k", "01.09.2026", "G1", "T1"⟩ : HandlerResult String).calls
      = [.getScheduleByGroup "G1" "01.09.2026"] :=
  (C5_group_precedence (fun _ => Except.ok "P") "05.10.2026"
    ⟨"k", "01.09.2026", "G1", "T1"⟩ (by decide) (Or.inr (by decide))
    (by decide) (by decide)).1

/-- C10: whenever the `page` parameter parses under `strconv.Atoi` — the
sign is kept, zero and negatives included, with no further range or
positivity check in the handler — the parsed value is passed unchanged to
the upstream `GetAnnounces` call. -/
theorem C10_page_passthrough {α : Type} (up : Upstream α) (s : String) (n : Int)
    (h : goAtoi s = some n) :
    (announces up s).calls = [.getAnnounces n] := by
  rcases hup : up (.getAnnounces n) with e | p
  · simp only [announces, h, hup]; split_ifs <;> rfl
  · simp [announces, h, hup]

/-- C10 witness: `page=-3` parses to `-3` and is passed unchanged;
`page=0` likewise. -/
theorem C10_witness :
    (announces (fun _ => Except.ok "P") "-3" : HandlerResult String).calls
      = [.getAnnounces (-3)]
    ∧ (announces (fun _ => Except.ok "P") "0" : HandlerResult String).calls
      = [.getAnnounces 0] :=
  ⟨C10_page_passthrough (fun _ => Except.ok "P") "-3" (-3) (by decide),
   C10_page_passthrough (fun _ => Except.ok "P") "0" 0 (by decide)⟩

/-- C6: when the upstream call fails with an unclassified error — one
carrying neither the context's cancellation/deadline signal nor the
`BadRequest` or `BadResponse` tag — the response is status 500 with the
fixed generic message on every endpoint, identical for any two such
errors whatever their messages, and the error message is logged. -/
theorem C6_unknown_error_uniform {α : Type} (up1 up2 : Upstream α) (e1 e2 : UpstreamError)
    (nowDate : String) (q : ScheduleQuery) (pageStr : String) (page : Int)
    (hsig1 : (e1.isDeadlineExceeded || e1.isCanceled) = false)
    (hbr1 : e1.isBadRequest = false) (hre1 : e1.isBadResponse = false)
    (hsig2 : (e2.isDeadlineExceeded || e2.isCanceled) = false)
    (hbr2 : e2.isBadRequest = false) (hre2 : e2.isBadResponse = false) :
    (up1 .getTeacherOptions = .error e1 → up2 .getTeacherOptions = .error e2 →
      (teachers up1).writes = (teachers up2).writes
      ∧ (teachers up1).writes = [write StatusInternalServerError (.resp { Error := ErrorAny })]
      ∧ (teachers up1).logged = [e1.message] ∧ (teachers up2).logged = [e2.message])
    ∧ (up1 .getGroupOptions = .error e1 → up2 .getGroupOptions = .error e2 →
      (groups up1).writes = (groups up2).writes
      ∧ (groups up1).writes = [write StatusInternalServerError (.resp { Error := ErrorAny })]
      ∧ (groups up1).logged = [e1.message] ∧ (groups up2).logged = [e2.message])
    ∧ (q.key ≠ "" → ¬(q.date ≠ "" ∧ parseGoDate q.date = false) → q.group ≠ "" →
      up1 (.getScheduleByGroup q.group (resolvedDate q nowDate)) = .error e1 →
      up2 (.getScheduleByGroup q.group (resolvedDate q nowDate)) = .error e2 →
      (schedule up1 nowDate q).writes = (schedule up2 nowDate q).writes
      ∧ (schedule up1 nowDate q).writes = [write StatusInternalServerError (.resp { Error := ErrorAny })]
      ∧ (schedule up1 nowDate q).logged = [e1.message] ∧ (schedule up2 nowDate q).logged = [e2.message])
    ∧ (q.key ≠ "" → ¬(q.date ≠ "" ∧ parseGoDate q.date = false) → q.group = "" → q.teacher ≠ "" →
      up1 (.getScheduleByTeacher q.teacher (resolvedDate q nowDate)) = .error e1 →
      up2 (.getScheduleByTeacher q.teacher (resolvedDate q nowDate)) = .error e2 →
      (schedule up1 nowDate q).writes = (schedule up2 nowDate q).writes
      ∧ (schedule up1 nowDate q).writes = [write StatusInternalServerError (.resp { Error := ErrorAny })]
      ∧ (schedule up1 nowDate q).logged = [e1.message] ∧ (schedule up2 nowDate q).logged = [e2.message])
    ∧ (goAtoi pageStr = some page →
      up1 (.getAnnounces page) = .error e1 → up2 (.getAnnounces page) = .error e2 →
      (announces up1 pageStr).writes = (announces up2 pageStr).writes
      ∧ (announces up1 pageStr).writes = [write StatusInternalServerError (.resp { Error := ErrorAny })]
      ∧ (announces up1 pageStr).logged = [e1.message] ∧ (announces up2 pageStr).logged = [e2.message]) := by
  refine ⟨?_, ?_, ?_, ?_, ?_⟩
  · intro h1 h2
    rw [teachers_unclassified up1 e1 h1 hsig1 hre1, teachers_unclassified up2 e2 h2 hsig2 hre2]
    exact ⟨rfl, rfl, rfl, rfl⟩
  · intro h1 h2
    rw [groups_unclassified up1 e1 h1 hsig1 hre1, groups_unclassified up2 e2 h2 hsig2 hre2]
    exact ⟨rfl, rfl, rfl, rfl⟩
  · intro hk hd hg h1 h2
    rw [schedule_group_unclassified up1 nowDate q e1 hk hd hg h1 hsig1 hbr1 hre1,
        schedule_group_unclassified up2 nowDate q e2 hk hd hg h2 hsig2 hbr2 hre2]
    exact ⟨rfl, rfl, rfl, rfl⟩
  · intro hk hd hg ht h1 h2
    rw [schedule_teacher_unclassified up1 nowDate q e1 hk hd hg ht h1 hsig1 hbr1 hre1,
        schedule_teacher_unclassified up2 nowDate q e2 hk hd hg ht h2 hsig2 hbr2 hre2]
    exact ⟨rfl, rfl, rfl, rfl⟩
  · intro hp h1 h2
    rw [announces_unclassified up1 pageStr page e1 hp h1 hsig1 hre1,
        announces_unclassified up2 pageStr page e2 hp h2 hsig2 hre2]
    exact ⟨rfl, rfl, rfl, rfl⟩

/-- C6 witness: two different unclassified upstream error messages give
identical responses — 500 with the fixed generic message — both on
`teachers` and on a teacher-only `schedule` request. -/
theorem C6_witness :
    (teachers (fun _ => Except.error ⟨false, false, false, false, "secret one"⟩) : HandlerResult String).writes
      = (teachers (fun _ => Except.error ⟨false, false, false, false, "secret two"⟩) : HandlerResult String).writes
    ∧ (teachers (fun _ => Except.error ⟨false, false, false, false, "secret one"⟩) : HandlerResult String).writes
      = [write StatusInternalServerError (.resp { Error := ErrorAny })]
    ∧ (schedule (fun _ => Except.error ⟨false, false, false, false, "secret one"⟩) "05.10.2026"
        ⟨"k", "", "", "T1"⟩ : HandlerResult String).writes
      = (schedule (fun _ => Except.error ⟨false, false, false, false, "secret two"⟩) "05.10.2026"
        ⟨"k", "", "", "T1"⟩ : HandlerResult String).writes
    ∧ (schedule (fun _ => Except.error ⟨false, false, false, false, "secret one"⟩) "05.10.2026"
        ⟨"k", "", "", "T1"⟩ : HandlerResult String).writes
      = [write StatusInternalServerError (.resp { Error := ErrorAny })] := by
  have h := C6_unknown_error_uniform (α := String)
    (fun _ => Except.error ⟨false, false, false, false, "secret one"⟩)
    (fun _ => Except.error ⟨false, false, false, false, "secret two"⟩)
    ⟨false, false, false, false, "secret one"⟩ ⟨false, false, false, false, "secret two"⟩
    "05.10.2026" ⟨"k", "", "", "T1"⟩ "1" 1 rfl rfl rfl rfl rfl rfl
  exact ⟨(h.1 rfl rfl).1, (h.1 rfl rfl).2.1,
    (h.2.2.2.1 (by decide) (by decide) rfl (by decide) rfl rfl).1,
    (h.2.2.2.1 (by decide) (by decide) rfl (by decide) rfl rfl).2.1⟩

/-- C7: a successful upstream call yields a response whose status line is
never explicitly written (so the status is the default 200), whose body
is the payload itself with no envelope, and exactly one write happens. -/
theorem C7_success_payload {α : Type} (up : Upstream α) (p : α) (nowDate : String)
    (q : ScheduleQuery) (pageStr : String) (page : Int) :
    (up .getTeacherOptions = .ok p →
      (teachers up).writes = [{ writtenHeader := none, body := .payload p }]
      ∧ (teachers up).writes.length = 1
      ∧ ∀ r ∈ (teachers up).writes, r.status = 200)
    ∧ (up .getGroupOptions = .ok p →
      (groups up).writes = [{ writtenHeader := none, body := .payload p }]
      ∧ (groups up).writes.length = 1
      ∧ ∀ r ∈ (groups up).writes, r.status = 200)
    ∧ (q.key ≠ "" → ¬(q.date ≠ "" ∧ parseGoDate q.date = false) → q.group ≠ "" →
      up (.getScheduleByGroup q.group (resolvedDate q nowDate)) = .ok p →
      (schedule up nowDate q).writes = [{ writtenHeader := none, body := .payload p }]
      ∧ (schedule up nowDate q).writes.length = 1
      ∧ ∀ r ∈ (schedule up nowDate q).writes, r.status = 200)
    ∧ (q.key ≠ "" → ¬(q.date ≠ "" ∧ parseGoDate q.date = false) → q.group = "" → q.teacher ≠ "" →
      up (.getScheduleByTeacher q.teacher (resolvedDate q nowDate)) = .ok p →
      (schedule up nowDate q).writes = [{ writtenHeader := none, body := .payload p }]
      ∧ (schedule up nowDate q).writes.length = 1
      ∧ ∀ r ∈ (schedule up nowDate q).writes, r.status = 200)
    ∧ (goAtoi pageStr = some page → up (.getAnnounces page) = .ok p →
      (announces up pageStr).writes = [{ writtenHeader := none, body := .payload p }]
      ∧ (announces up pageStr).writes.length = 1
      ∧ ∀ r ∈ (announces up pageStr).writes, r.status = 200) := by
  refine ⟨?_, ?_, ?_, ?_, ?_⟩
  · intro h
    simp only [teachers, h]
    refine ⟨rfl, rfl, ?_⟩
    intro r hr
    simp only [List.mem_singleton] at hr
    subst hr
    rfl
  · intro h
    simp only [groups, h]
    refine ⟨rfl, rfl, ?_⟩
    intro r hr
    simp only [List.mem_singleton] at hr
    subst hr
    rfl
  · intro hk hd hg h
    unfold schedule
    rw [if_neg hk, if_neg hd, if_pos hg]
    simp only [h]
    refine ⟨rfl, rfl, ?_⟩
    intro r hr
    simp only [List.mem_singleton] at hr
    subst hr
    rfl
  · intro hk hd hg ht h
    unfold schedule
    rw [if_neg hk, if_neg hd, if_neg (by simpa using hg), if_pos ht]
    simp only [h]
    refine ⟨rfl, rfl, ?_⟩
    intro r hr
    simp only [List.mem_singleton] at hr
    subst hr
    rfl
  · intro hp h
    simp only [announces, hp, h]
    refine ⟨rfl, rfl, ?_⟩
    intro r hr
    simp only [List.mem_singleton] at hr
    subst hr
    rfl

/-- C7 witness: the round trip of the spec —
`/schedule?key=abc&group=G1&date=01.09.2024` against an upstream
returning payload `P` — produces exactly one write, with no status line
written and the bare payload as the body. -/
theorem C7_witness :
    (schedule (fun _ => Except.ok "P") "05.10.2026"
        ⟨"abc", "01.09.2024", "G1", ""⟩ : HandlerResult String).writes
      = [{ writtenHeader := none, body := .payload "P" }] := by
  have h := C7_success_payload (α := String) (fun _ => Except.ok "P") "P" "05.10.2026"
    ⟨"abc", "01.09.2024", "G1", ""⟩ "1" 1
  exact (h.2.2.1 (by decide) (by decide) (by decide) rfl).1

/-- C8 counterexample: a `BadResponse`-tagged upstream error whose
message is the empty string is passed through verbatim, producing an
envelope with both fields empty — serialized with zero fields, not
exactly one, contradicting the claim. -/
theorem C8_counterexample :
    (teachers (fun _ => Except.error ⟨false, false, false, true, ""⟩) : HandlerResult String).writes
      = [{ writtenHeader := some StatusInternalServerError
           body := .resp { Message := "", Error := "" } }]
    ∧ Response.encodedFields { Message := "", Error := "" } = []
    ∧ ¬ envelopeOneField { Message := "", Error := "" } :=
  ⟨rfl, rfl, by simp [envelopeOneField]⟩

/-- C8 amended: provided every verbatim-passed upstream error message is
non-empty, every envelope any handler writes has exactly one field
present and serializes to exactly that field (the empty field is
omitted); the writer's `nil` substitution also satisfies this, carrying
`Message` for 200 and `Error` otherwise. -/
theorem C8_envelope_one_field {α : Type} (up : Upstream α) (nowDate : String)
    (q : ScheduleQuery) (pageStr : String)
    (hmsg : ∀ c e, up c = .error e → e.message ≠ "") :
    (∀ r ∈ (teachers up).writes, ∀ env, r.body = .resp env → envelopeOneField env)
    ∧ (∀ r ∈ (groups up).writes, ∀ env, r.body = .resp env → envelopeOneField env)
    ∧ (∀ r ∈ (schedule up nowDate q).writes, ∀ env, r.body = .resp env → envelopeOneField env)
    ∧ (∀ r ∈ (announces up pageStr).writes, ∀ env, r.body = .resp env → envelopeOneField env)
    ∧ ((write StatusOK (.goNil : WriteData α)).body = .resp { Message := statusText StatusOK }
       ∧ envelopeOneField { Message := statusText StatusOK, Error := "" })
    ∧ ((write StatusBadRequest (.goNil : WriteData α)).body = .resp { Error := statusText StatusBadRequest }
       ∧ envelopeOneField { Error := statusText StatusBadRequest })
    ∧ ((write StatusInternalServerError (.goNil : WriteData α)).body
        = .resp { Error := statusText StatusInternalServerError }
       ∧ envelopeOneField { Error := statusText StatusInternalServerError }) := by
  refine ⟨?_, ?_, ?_, ?_, ⟨rfl, Or.inl ⟨by decide, rfl, by decide⟩⟩,
    ⟨rfl, envelopeOneField_error (by decide)⟩, ⟨rfl, envelopeOneField_error (by decide)⟩⟩
  · exact teachers_envelopes up envelopeOneField
      (envelopeOneField_error (by decide)) (envelopeOneField_error (by decide))
      (fun e he => envelopeOneField_error (hmsg _ e he))
  · exact groups_envelopes up envelopeOneField
      (envelopeOneField_error (by decide)) (envelopeOneField_error (by decide))
      (fun e he => envelopeOneField_error (hmsg _ e he))
  · exact schedule_envelopes up nowDate q envelopeOneField
      (envelopeOneField_error (by decide)) (envelopeOneField_error (by decide))
      (envelopeOneField_error (by decide))
      (fun c e he => envelopeOneField_error (hmsg c e he))
  · exact announces_envelopes up pageStr envelopeOneField
      (envelopeOneField_error (by decide)) (envelopeOneField_error (by decide))
      (envelopeOneField_error (by decide))
      (fun c e he => envelopeOneField_error (hmsg c e he))

/-- C8 witness: the envelope for a `BadResponse` error with the
non-empty message `bad response` has exactly the `Error` field. -/
theorem C8_witness :
    envelopeOneField { Message := "", Error := "bad response" }
    ∧ (teachers (fun _ => Except.error ⟨false, false, false, true, "bad response"⟩) : HandlerResult String).writes
      = [{ writtenHeader := some StatusInternalServerError
           body := .resp { Message := "", Error := "bad response" } }] := by
  refine ⟨?_, rfl⟩
  have h := C8_envelope_one_field (α := String)
    (fun _ => Except.error ⟨false, false, false, true, "bad response"⟩)
    "05.10.2026" ⟨"k", "", "G1", ""⟩ "1"
    (by intro c e he; injection he with he; subst he; decide)
  exact h.1 { writtenHeader := some StatusInternalServerError
              body := .resp { Message := "", Error := "bad response" } }
    (by decide) { Message := "", Error := "bad response" } rfl

/-- C9 counterexample: the `schedule` handler passes a `BadRequest`
error's message through verbatim, so an upstream error whose message
happens to equal `ErrorRequestTimeout` makes the response carry exactly
that declared string, contradicting the claim that no response ever
carries it. -/
theorem C9_counterexample :
    (schedule (fun _ => Except.error ⟨false, false, true, false, ErrorRequestTimeout⟩)
        "05.10.2026" ⟨"k", "", "G1", ""⟩ : HandlerResult String).writes
      = [write StatusBadRequest (.resp { Error := ErrorRequestTimeout })] := rfl

/-- C9 amended: no handler branch produces the declared
`ErrorRequestTimeout` string of its own: as long as every upstream error
message differs from it, no envelope on any endpoint carries it in
either field — it can reach a response only as a verbatim upstream
message. -/
theorem C9_request_timeout_unused {α : Type} (up : Upstream α) (nowDate : String)
    (q : ScheduleQuery) (pageStr : String)
    (hmsg : ∀ c e, up c = .error e → e.message ≠ ErrorRequestTimeout) :
    (∀ r ∈ (teachers up).writes, ∀ env, r.body = .resp env →
      env.Error ≠ ErrorRequestTimeout ∧ env.Message ≠ ErrorRequestTimeout)
    ∧ (∀ r ∈ (groups up).writes, ∀ env, r.body = .resp env →
      env.Error ≠ ErrorRequestTimeout ∧ env.Message ≠ ErrorRequestTimeout)
    ∧ (∀ r ∈ (schedule up nowDate q).writes, ∀ env, r.body = .resp env →
      env.Error ≠ ErrorRequestTimeout ∧ env.Message ≠ ErrorRequestTimeout)
    ∧ (∀ r ∈ (announces up pageStr).writes, ∀ env, r.body = .resp env →
      env.Error ≠ ErrorRequestTimeout ∧ env.Message ≠ ErrorRequestTimeout) := by
  refine ⟨?_, ?_, ?_, ?_⟩
  · apply teachers_envelopes up
      (fun env => env.Error ≠ ErrorRequestTimeout ∧ env.Message ≠ ErrorRequestTimeout)
    · decide
    · decide
    · intro e he
      exact ⟨hmsg _ e he, (by decide : ("" : String) ≠ ErrorRequestTimeout)⟩
  · apply groups_envelopes up
      (fun env => env.Error ≠ ErrorRequestTimeout ∧ env.Message ≠ ErrorRequestTimeout)
    · decide
    · decide
    · intro e he
      exact ⟨hmsg _ e he, (by decide : ("" : String) ≠ ErrorRequestTimeout)⟩
  · apply schedule_envelopes up nowDate q
      (fun env => env.Error ≠ ErrorRequestTimeout ∧ env.Message ≠ ErrorRequestTimeout)
    · decide
    · decide
    · decide
    · intro c e he
      exact ⟨hmsg c e he, (by decide : ("" : String) ≠ ErrorRequestTimeout)⟩
  · apply announces_envelopes up pageStr
      (fun env => env.Error ≠ ErrorRequestTimeout ∧ env.Message ≠ ErrorRequestTimeout)
    · decide
    · decide
    · decide
    · intro c e he
      exact ⟨hmsg c e he, (by decide : ("" : String) ≠ ErrorRequestTimeout)⟩

/-- C9 witness: the generic-message envelope a `teachers` unclassified
failure produces does not carry the declared rate-limit string in either
field. -/
theorem C9_witness :
    ErrorAny ≠ ErrorRequestTimeout ∧ ("" : String) ≠ ErrorRequestTimeout := by
  have h := C9_request_timeout_unused (α := String)
    (fun _ => Except.error ⟨false, false, false, false, "x"⟩)
    "05.10.2026" ⟨"k", "", "G1", ""⟩ "1"
    (by intro c e he; injection he with he; subst he; decide)
  exact h.1 (write StatusInternalServerError (.resp { Error := ErrorAny })) (by decide)
    { Message := "", Error := ErrorAny } rfl

end HmtpkApi
